import Mathlib

/-!
Verification of the CapGate orchestration core against its specification.

Each Python component named in the claims is shallowly embedded as executable
Lean definitions: pure parsing code becomes Lean functions on strings and
lists, stateful code becomes explicit state passing over model states, and
interactions with the operating system (shell commands, processes) become
explicit world/outcome parameters together with an event trace recording the
commands that were issued.
-/

namespace CapGate

/-! ## String helpers mirroring the Python primitives used by the source -/

/-- Boolean test that the first list occurs as a contiguous sublist of the
second (the semantics of the Python `in` operator on strings). -/
def isSubList : List Char → List Char → Bool
  | needle, [] => needle.isEmpty
  | needle, c :: t => needle.isPrefixOf (c :: t) || isSubList needle t

/-- Python `needle in hay` for strings. -/
def strContains (hay needle : String) : Bool :=
  isSubList needle.toList hay.toList

/-- Python `s.strip()`: remove leading and trailing whitespace. -/
def pyStrip (s : String) : String :=
  String.mk
    (((s.toList.dropWhile Char.isWhitespace).reverse.dropWhile
      Char.isWhitespace).reverse)

/-- Python `s.upper()` on ASCII text. -/
def pyUpper (s : String) : String :=
  String.mk (s.toList.map Char.toUpper)

/-- Python `s.lower()` on ASCII text. -/
def pyLower (s : String) : String :=
  String.mk (s.toList.map Char.toLower)

/-- Python `s.replace(",", "")`. -/
def pyRemoveCommas (s : String) : String :=
  String.mk (s.toList.filter (fun c => c ≠ ','))

/-- Numeric value of a digit string. -/
def digitsVal (ds : List Char) : Nat :=
  ds.foldl (fun n c => 10 * n + (c.toNat - 48)) 0

/-- Python `int(s)` on a stripped decimal string: optional sign followed by a
nonempty run of digits; `none` models the `ValueError` raised otherwise. -/
def pyInt (s : String) : Option Int :=
  match (pyStrip s).toList with
  | [] => none
  | c :: ds =>
    if c = '-' then
      if ds.isEmpty || !ds.all Char.isDigit then none
      else some (-(digitsVal ds : Int))
    else if c = '+' then
      if ds.isEmpty || !ds.all Char.isDigit then none
      else some (digitsVal ds : Int)
    else if (c :: ds).all Char.isDigit then some (digitsVal (c :: ds) : Int)
    else none

/-! ## Network scanner (src/core/network_scanner.py, perform_airodump_scan)

The airodump CSV file is taken at the boundary of Python's `csv.reader`: the
input is the list of already-split rows, each a list of field strings.  The
code walks the rows keeping an `ap_section` flag, skips blank rows, flips the
flag at the `Station MAC` sentinel, skips the `BSSID` header and all rows
shorter than 14 fields, classifies empty or NUL-containing ESSIDs as hidden,
and keeps a row only when the security filter is a substring of its privacy
field (case-insensitively). -/

structure APNetwork where
  bssid : String
  channel : String
  essid : String
  essid_raw : String
  privacy : String
  power : String
deriving Repr, DecidableEq

namespace NetworkScanner

/-- The NUL character test `(CHAR 0) in essid_raw` from line 167. -/
def hasNul (s : String) : Bool :=
  s.toList.any (fun c => c.toNat = 0)

/-- One pass over the CSV rows (lines 141-181 of network_scanner.py),
carrying the `ap_section` flag. -/
def parseAPSection (filter : String) : List (List String) → Bool → List APNetwork
  | [], _ => []
  | row :: rest, apSection =>
    match row with
    | [] => parseAPSection filter rest apSection
    | c0 :: _ =>
      if pyStrip c0 = "" then parseAPSection filter rest apSection
      else if pyStrip c0 = "Station MAC" then parseAPSection filter rest false
      else if !apSection then parseAPSection filter rest apSection
      else if pyStrip c0 = "BSSID" then parseAPSection filter rest apSection
      else if row.length < 14 then parseAPSection filter rest apSection
      else
        let bssid := pyStrip c0
        let channel := pyStrip ((row.get? 3).getD "")
        let privacy := pyStrip ((row.get? 5).getD "")
        let power := pyStrip ((row.get? 8).getD "")
        let essid_raw := pyStrip ((row.get? 13).getD "")
        let essid_display :=
          if essid_raw = "" || hasNul essid_raw then "<Hidden SSID>" else essid_raw
        if strContains (pyUpper privacy) (pyUpper filter) then
          { bssid := bssid, channel := channel, essid := essid_display,
            essid_raw := essid_raw, privacy := privacy, power := power }
            :: parseAPSection filter rest apSection
        else parseAPSection filter rest apSection

/-- The sort key of line 203: `int(power.replace(',', ''))`, `none` when the
conversion raises `ValueError`. -/
def powerKey (n : APNetwork) : Option Int :=
  pyInt (pyRemoveCommas n.power)

/-- The comparator realising `sort(key=..., reverse=True)`: stable descending
order on the integer keys. -/
def powerGE (a b : APNetwork) : Bool :=
  (powerKey b).getD 0 ≤ (powerKey a).getD 0

/-- Lines 201-206: the sort is attempted inside try/except ValueError.  When
every key conversion succeeds the list is stably sorted descending by power;
when any key raises, CPython restores the list and the except branch leaves it
in its original order. -/
def sortNetworks (ns : List APNetwork) : List APNetwork :=
  if ns.all (fun n => (powerKey n).isSome) then ns.mergeSort powerGE else ns

/-- The parse-and-sort pipeline of perform_airodump_scan applied to the rows
of the airodump CSV (the subprocess and file management around it are not part
of the parsing claims). -/
def scanResult (rows : List (List String)) (filter : String) : List APNetwork :=
  sortNetworks (parseAPSection filter rows true)

end NetworkScanner

/-! ## JSON values and the state store (src/core/state_management/state.py)

The persisted snapshot is a JSON document; `json.dump` followed by
`json.load` is the identity on JSON trees built from null, booleans,
integers, strings, arrays and string-keyed objects, so the file contents are
modelled by the tree itself. -/

inductive Json where
  | null
  | bool (b : Bool)
  | num (n : Int)
  | str (s : String)
  | arr (items : List Json)
  | obj (fields : List (String × Json))
deriving Repr

/-- Python `dict.get` on a JSON object (keys are unique; first hit wins). -/
def objGet (fields : List (String × Json)) (k : String) : Option Json :=
  match fields with
  | [] => Option.none
  | (k2, v) :: t => if k2 = k then some v else objGet t k

/-- Python truthiness of a JSON value (used by
`dict(self.discovery_graph) if self.discovery_graph else ...`). -/
def jsonTruthy : Json → Bool
  | .null => false
  | .bool b => b
  | .num n => n != 0
  | .str s => !s.isEmpty
  | .arr l => !l.isEmpty
  | .obj l => !l.isEmpty

/-- The three dynamically-typed attributes of AppState that the persistence
methods read and write. -/
structure AppState where
  loaded_plugins : Json
  discovery_graph : Json
  user_config : Json
deriving Repr

/-- An uncaught Python exception escaping load_from_file. -/
inductive PyExc where
  | attributeError
deriving Repr, DecidableEq

namespace AppState

/-- The attribute values installed by AppState.__init__ (lines 22-28). -/
def init : AppState :=
  { loaded_plugins := .arr []
    discovery_graph := .obj [("interfaces", .obj []), ("devices", .obj [])]
    user_config := .obj [] }

/-- to_dict (lines 69-77): the snapshot object, substituting the empty graph
when discovery_graph is falsy. -/
def to_dict (st : AppState) : Json :=
  .obj [("loaded_plugins", st.loaded_plugins),
        ("discovery_graph",
          if jsonTruthy st.discovery_graph then st.discovery_graph
          else .obj [("interfaces", .obj []), ("devices", .obj [])]),
        ("user_config", st.user_config)]

/-- save_to_file (lines 79-87) writes the JSON text of to_dict; the file
content is modelled as the JSON tree. -/
def save_to_file (st : AppState) : Json :=
  st.to_dict

/-- What load_from_file finds at the path: a missing file, unparsable
contents, an I/O failure, or a parsed JSON document. -/
inductive LoadInput where
  | missingFile
  | notJson
  | ioError
  | content (data : Json)

/-- load_from_file (lines 89-121).  The three handled exceptions reset every
component to its default; a parsed object is read field by field with
defaults for missing keys and a `None` check on discovery_graph.  Calling
`.get` on a non-object raises AttributeError, which the source does not
catch. -/
def load_from_file (st : AppState) (input : LoadInput) : Except PyExc AppState :=
  match input with
  | .missingFile => .ok init
  | .notJson => .ok init
  | .ioError => .ok init
  | .content data =>
    match data with
    | .obj fields =>
      let lp := (objGet fields "loaded_plugins").getD (.arr [])
      let uc := (objGet fields "user_config").getD (.obj [])
      match objGet fields "discovery_graph" with
      | Option.none =>
        .ok { loaded_plugins := lp
              discovery_graph := .obj [("interfaces", .obj []), ("devices", .obj [])]
              user_config := uc }
      | some .null =>
        .ok { loaded_plugins := lp
              discovery_graph := .obj [("interfaces", .obj []), ("devices", .obj [])]
              user_config := uc }
      | some (.obj dgFields) =>
        .ok { loaded_plugins := lp
              discovery_graph := .obj
                [("interfaces", (objGet dgFields "interfaces").getD (.obj [])),
                 ("devices", (objGet dgFields "devices").getD (.obj []))]
              user_config := uc }
      | some _ => .error .attributeError
    | _ => .error .attributeError

end AppState

/-! ## Devices map (src/vision/scanners/device_scanner.py and
src/runner.py, _initialize_core_state) -/

/-- Python dictionary lookup over an insertion-ordered association list
(keys are unique by construction of dictUpdate). -/
def lookupKey {α : Type} (m : List (String × α)) (k : String) : Option α :=
  match m with
  | [] => Option.none
  | (k2, v) :: t => if k2 = k then some v else lookupKey t k

/-- Replace the value bound to a key, keeping its position. -/
def replaceKey {α : Type} : List (String × α) → String → α → List (String × α)
  | [], _, _ => []
  | p :: t, k, v =>
    if p.1 = k then (k, v) :: replaceKey t k v else p :: replaceKey t k v

/-- Python `dict.update` with a single key: replace in place when the key is
present, append otherwise (insertion order preserved). -/
def dictUpdate {α : Type} (m : List (String × α)) (k : String) (v : α) :
    List (String × α) :=
  if (lookupKey m k).isSome then replaceKey m k v
  else m ++ [(k, v)]

/-- The Device fields the two scan paths populate (the remaining schema
fields keep their defaults and play no role in the claims). -/
structure DeviceEntry where
  mac : String
  ip : String
  last_seen : Nat
deriving Repr, DecidableEq

/-- Python `str.split()` without arguments: split on whitespace runs. -/
def pySplitWs (s : String) : List String :=
  (s.split Char.isWhitespace).filter (fun p => p ≠ "")

/-- Python `s.strip("()")`: remove leading and trailing parenthesis
characters. -/
def stripParens (s : String) : String :=
  let isParen : Char → Bool := fun c => c = '(' || c = ')'
  String.mk (((s.toList.dropWhile isParen).reverse.dropWhile isParen).reverse)

/-- parse_arp_table (device_scanner.py lines 11-31) over the stdout lines of
`arp -an`: skip incomplete rows, keep rows with at least four
whitespace-separated parts, returning (MAC, IP) pairs. -/
def parse_arp_table (lines : List String) : List (String × String) :=
  match lines with
  | [] => []
  | line :: rest =>
    if strContains line.toLower "incomplete" then parse_arp_table rest
    else
      let parts := pySplitWs line
      if parts.length ≥ 4 then
        (((parts.get? 3).getD ""), stripParens ((parts.get? 1).getD ""))
          :: parse_arp_table rest
      else parse_arp_table rest

/-- scan_devices_from_arp_table_and_update_state (lines 40-70): merge the
parsed pairs into the devices map, explicitly skipping the zero MAC. -/
def scan_devices_from_arp_table (st : List (String × DeviceEntry))
    (lines : List String) (now : Nat) : List (String × DeviceEntry) :=
  (parse_arp_table lines).foldl
    (fun m p =>
      if p.1 = "00:00:00:00:00:00" then m
      else dictUpdate m p.1 { mac := p.1, ip := p.2, last_seen := now })
    st

/-- The active ARP-sweep merge of runner.py lines 98-124: each (mac, ip)
dictionary returned by arp_scan is merged whenever both strings are truthy;
there is no zero-MAC check on this path. -/
def active_arp_sweep_merge (st : List (String × DeviceEntry))
    (found : List (String × String)) (now : Nat) :
    List (String × DeviceEntry) :=
  found.foldl
    (fun m p =>
      if p.1 ≠ "" ∧ p.2 ≠ "" then
        dictUpdate m p.1 { mac := p.1, ip := p.2, last_seen := now }
      else m)
    st

/-! ## Plugin invocation (src/runner.py, CapGateRunner.run_plugin) -/

/-- A dynamically-typed value a plugin run may produce. -/
inductive PyVal where
  | none
  | bool (b : Bool)
  | str (s : String)
deriving Repr, DecidableEq

/-- The observable behaviour of a plugin module entry point: return a value
or raise. -/
inductive PluginBehavior where
  | returns (v : PyVal)
  | raises
deriving Repr, DecidableEq

/-- plugin.module.run as an exception-aware computation. -/
def pluginCall (b : PluginBehavior) : Except Unit PyVal :=
  match b with
  | .returns v => .ok v
  | .raises => .error ()

/-- CapGateRunner.run_plugin (runner.py lines 155-180): an unknown name
returns None (line 163); a raising plugin is caught, logged and the bare
`return` yields None (lines 177-180); otherwise the plugin's own return
value is passed through unchanged (line 176). -/
def run_plugin (reg : List (String × PluginBehavior)) (name : String) :
    Except Unit PyVal :=
  match lookupKey reg name with
  | Option.none => .ok .none
  | some b =>
    match pluginCall b with
    | .ok v => .ok v
    | .error _ => .ok .none

/-! ## Evil Twin workflow entry point (src/plugins/evil_twin/main.py, run) -/

/-- Outcome of one phase method: a returned boolean or a raised exception. -/
inductive POut where
  | ok (b : Bool)
  | exc
deriving Repr, DecidableEq

/-- One execution of run(ctx, *args), abstracted to the outcomes of the
constructor and of the five phase calls it makes. -/
structure EvilTwinTrace where
  ctorRaises : Bool
  select : POut
  findTarget : POut
  setupInfra : POut
  attackLoop : POut
  verifyCleanup : POut
deriving Repr, DecidableEq

/-- run (evil_twin/main.py lines 555-636): the phase cascade inside
try/except/finally.  The result is the value run returns paired with whether
`evil_twin_attack.cleanup()` was invoked by the finally block (it is skipped
only when the constructor raised, leaving `evil_twin_attack` as None). -/
def evilTwinRun (t : EvilTwinTrace) : Bool × Bool :=
  if t.ctorRaises then (false, false)
  else
    match t.select with
    | .exc => (false, true)
    | .ok false => (false, true)
    | .ok true =>
      match t.findTarget with
      | .exc => (false, true)
      | .ok false => (false, true)
      | .ok true =>
        match t.setupInfra with
        | .exc => (false, true)
        | .ok false => (false, true)
        | .ok true =>
          match t.attackLoop with
          | .exc => (false, true)
          | .ok _ =>
            match t.verifyCleanup with
            | .exc => (false, true)
            | .ok b => (b, true)

/-! ## Interface entries and the AP manager
(src/db/schemas/interface.py, src/vision/scanners/iface_scanner.py,
src/base/ap_manager.py) -/

/-- The Interface schema fields read or written by the AP manager and the
interface controller (the remaining schema fields keep their defaults and
are untouched by these operations). -/
structure Iface where
  name : String
  mac : String
  is_up : Bool
  mode : String
  driver : Option String
  ssid : Option String
  channel_frequency : Option String
  is_wireless : Bool
  supports_monitor : Bool
  supports_managed : Bool
  supports_ap : Bool
  supports_mesh : Bool
  supports_p2p : Bool
  supports_adhoc : Bool
  supports_wds : Bool
  supports_vap : Bool
  supports_tdma : Bool
  supports_mimo : Bool
  supports_2ghz : Bool
  supports_5ghz : Bool
  supports_6ghz : Bool
  supports_11a : Bool
  supports_11b : Bool
  supports_11g : Bool
  supports_11n : Bool
  supports_11ac : Bool
  supports_11ax : Bool
deriving Repr, DecidableEq

/-- The five mode-capability flags the interface scanner derives from a
wiphy's supported-modes list (iface_scanner.py lines 234-243), as
(monitor, managed, AP, mesh, p2p). -/
def capsFromSupportedModes (modes : List String) :
    Bool × Bool × Bool × Bool × Bool :=
  (modes.contains "monitor",
   modes.contains "managed",
   modes.contains "AP",
   modes.contains "mesh",
   modes.contains "P2P-client" || modes.contains "P2P-GO")

/-- The environment of one start_ap call: whether the hostapd config write,
the process spawn and the two liveness polls succeed. -/
structure APWorld where
  configWriteOk : Bool
  hostapdSpawnOk : Bool
  hostapdAliveAt3s : Bool
  hostapdAliveAt5s : Bool
deriving Repr, DecidableEq

/-- APManager.start_ap without MAC spoofing (ap_manager.py lines 68-209):
validate the stored entry, generate the config, spawn hostapd, poll it
twice, and on success rewrite the interface entry — including overwriting
every supports_* flag with mode-derived values (lines 160-195) — through
the state store. -/
def start_ap (st : List (String × Iface)) (w : APWorld) (interface ssid : String)
    (channel : Nat) (hw_mode : String) : Bool × List (String × Iface) :=
  match lookupKey st interface with
  | Option.none => (false, st)
  | some e =>
    if e.driver.isNone || e.mode = "ethernet" then (false, st)
    else if e.mode = "monitor" then (false, st)
    else if !w.configWriteOk then (false, st)
    else if !w.hostapdSpawnOk then (false, st)
    else if !w.hostapdAliveAt3s then (false, st)
    else if !w.hostapdAliveAt5s then (false, st)
    else
      let e2 := { e with
        mode := "AP"
        ssid := some ssid
        channel_frequency := some (toString channel ++ " (" ++ hw_mode ++ " band)")
        is_up := true
        is_wireless := true
        supports_ap := true
        supports_managed := false
        supports_monitor := false
        supports_mesh := false
        supports_p2p := false
        supports_adhoc := false
        supports_wds := false
        supports_vap := false
        supports_tdma := false
        supports_mimo := false
        supports_5ghz := false
        supports_6ghz := false
        supports_2ghz := false
        supports_11ax := false
        supports_11ac := false
        supports_11n := false
        supports_11g := false }
      let e3 :=
        if strContains hw_mode "g" then
          { e2 with supports_2ghz := true, supports_11g := true,
                    supports_11b := true }
        else e2
      let e4 :=
        if strContains hw_mode "a" then
          { e3 with supports_5ghz := true, supports_11a := true }
        else e3
      let e5 :=
        if strContains hw_mode "n" then { e4 with supports_11n := true } else e4
      let e6 :=
        if strContains hw_mode "ac" then { e5 with supports_11ac := true } else e5
      let e7 :=
        if strContains hw_mode "ax" then { e6 with supports_11ax := true } else e6
      (true, dictUpdate st interface e7)

/-! ## Traffic redirector (src/base/traffic_redirector.py) -/

/-- A command the redirector issues: an iptables invocation (the argv after
the `iptables` word) or a `sysctl -w net.ipv4.ip_forward=v`. -/
inductive TREvent where
  | ipt (argv : List String)
  | sysctlForward (v : Nat)
deriving Repr, DecidableEq

/-- The two instance attributes of TrafficRedirector (lines 20-23). -/
structure TRState where
  applied_rules : List (List String)
  ip_forwarding_enabled : Bool
deriving Repr, DecidableEq

/-- The environment of a redirector call: which iptables invocations
succeed (_execute_iptables_command catches failures and reports a
boolean). -/
structure TRWorld where
  iptablesOk : List String → Bool

/-- The flush and delete-chains commands run for the four tables
(lines 154-159). -/
def flushArgvs : List (List String) :=
  [["-t", "filter", "-F"], ["-t", "filter", "-X"],
   ["-t", "nat", "-F"], ["-t", "nat", "-X"],
   ["-t", "mangle", "-F"], ["-t", "mangle", "-X"],
   ["-t", "raw", "-F"], ["-t", "raw", "-X"]]

/-- clear_redirection_rules (lines 134-178): replay the undo list in reverse,
empty it, flush and delete custom chains in the four tables, and — when this
instance had enabled forwarding — issue the sysctl reset (whose
`check=False` invocation never raises).  `ip_forwarding_enabled` itself is
never assigned here. -/
def clear_redirection_rules (st : TRState) (w : TRWorld) :
    Bool × TRState × List TREvent :=
  let delOk := st.applied_rules.reverse.all w.iptablesOk
  let delEvents := st.applied_rules.reverse.map TREvent.ipt
  let flushOk := flushArgvs.all w.iptablesOk
  let flushEvents := flushArgvs.map TREvent.ipt
  let fwdEvents :=
    if st.ip_forwarding_enabled then [TREvent.sysctlForward 0] else []
  (delOk && flushOk,
   { applied_rules := [], ip_forwarding_enabled := st.ip_forwarding_enabled },
   delEvents ++ flushEvents ++ fwdEvents)

/-- The seven redirection rules assembled by setup_redirection_rules
(lines 85-109), without their leading `-A`. -/
def rulesToApply (ap_interface internet_interface webserver_ip : String)
    (webserver_port : Nat) : List (List String) :=
  [["-t", "nat", "-A", "POSTROUTING", "-o", internet_interface, "-j", "MASQUERADE"],
   ["-t", "nat", "-A", "PREROUTING", "-i", ap_interface, "-p", "tcp",
    "--dport", "80", "-j", "DNAT", "--to-destination",
    webserver_ip ++ ":" ++ toString webserver_port],
   ["-t", "nat", "-A", "PREROUTING", "-i", ap_interface, "-p", "tcp",
    "--dport", "443", "-j", "DNAT", "--to-destination",
    webserver_ip ++ ":" ++ toString webserver_port],
   ["-A", "FORWARD", "-i", ap_interface, "-p", "udp", "--dport", "53", "-j", "DROP"],
   ["-A", "FORWARD", "-i", ap_interface, "-o", internet_interface, "-j", "ACCEPT"],
   ["-A", "FORWARD", "-i", internet_interface, "-o", ap_interface, "-j", "ACCEPT"],
   ["-A", "FORWARD", "-m", "state", "--state", "ESTABLISHED,RELATED", "-j", "ACCEPT"]]

/-- The install loop of lines 115-123: prepend `-A`, stop at the first
failure, record the `-D` undo form of every success. -/
def applyLoop (w : TRWorld) :
    List (List String) → List (List String) → List TREvent →
    Bool × List (List String) × List TREvent
  | [], applied, events => (true, applied, events)
  | r :: rest, applied, events =>
    let events2 := events ++ [TREvent.ipt ("-A" :: r)]
    if w.iptablesOk ("-A" :: r) then
      applyLoop w rest (applied ++ [("-D" :: r)]) events2
    else (false, applied, events2)

/-- setup_redirection_rules (lines 57-131): clear first, reset the undo
list, install the seven rules in order, and on any failure invoke
clear_redirection_rules again and return false. -/
def setup_redirection_rules (st : TRState) (w : TRWorld)
    (ap_interface internet_interface webserver_ip : String)
    (webserver_port : Nat) : Bool × TRState × List TREvent :=
  let c1 := clear_redirection_rules st w
  let st2 : TRState :=
    { applied_rules := [], ip_forwarding_enabled := c1.2.1.ip_forwarding_enabled }
  let a := applyLoop w
    (rulesToApply ap_interface internet_interface webserver_ip webserver_port)
    [] []
  let st3 : TRState :=
    { applied_rules := a.2.1, ip_forwarding_enabled := st2.ip_forwarding_enabled }
  if a.1 then (true, st3, c1.2.2 ++ a.2.2)
  else
    let c2 := clear_redirection_rules st3 w
    (false, c2.2.1, c1.2.2 ++ a.2.2 ++ c2.2.2)

/-! ## Interface controller (src/core/interface_controller.py)

Shell commands are modelled by per-command outcomes: a flag saying whether
the `check=True` invocation raises, and the stdout it returns otherwise.
`run_command_no_check` turns a raising invocation into the empty string
(shelltools.py lines 71-92). -/

structure ShellOutcome where
  raises : Bool
  out : String
deriving Repr, DecidableEq

/-- The stdout seen through run_command_no_check: "" when the command
failed. -/
def runNC (o : ShellOutcome) : String :=
  if o.raises then "" else o.out

/-- Case-insensitive literal match of a lowercase pattern against the head
of a character list (the effect of re.IGNORECASE on literal text). -/
def ciStartsWith : List Char → List Char → Bool
  | [], _ => true
  | _ :: _, [] => false
  | p :: ps, c :: cs => (c.toLower = p) && ciStartsWith ps cs

/-- Python regex word characters. -/
def isWordChar (c : Char) : Bool :=
  c.isAlphanum || c = '_'

/-- Greedy backtracking for the group `(\w+mon\d*|\w+mon)`: try the longest
word-character run first, require the case-insensitive literal `mon`, then
extend greedily over digits; the captured text keeps its original case. -/
def airmonGroupAt (cs : List Char) : Nat → Option (List Char)
  | 0 => Option.none
  | n + 1 =>
    let rest := cs.drop (n + 1)
    if ciStartsWith ['m', 'o', 'n'] rest then
      some (cs.take (n + 1) ++ rest.take 3 ++
        (rest.drop 3).takeWhile Char.isDigit)
    else airmonGroupAt cs n

/-- The first alternative of the airmon-ng regex at one position:
`monitor mode enabled on (\w+mon\d*|\w+mon)` (case-insensitive). -/
def airmonAlt1 (cs : List Char) : Option (List Char) :=
  let lit := "monitor mode enabled on ".toList
  if ciStartsWith lit cs then
    let rest := cs.drop lit.length
    airmonGroupAt rest (rest.takeWhile isWordChar).length
  else Option.none

/-- The second alternative at one position: `(wlan\d+mon)`
(case-insensitive; `\d+` cannot backtrack into `mon`). -/
def airmonAlt2 (cs : List Char) : Option (List Char) :=
  if ciStartsWith ['w', 'l', 'a', 'n'] cs then
    let rest := cs.drop 4
    let ds := rest.takeWhile Char.isDigit
    if ds.isEmpty then Option.none
    else if ciStartsWith ['m', 'o', 'n'] (rest.drop ds.length) then
      some (cs.take 4 ++ ds ++ (rest.drop ds.length).take 3)
    else Option.none
  else Option.none

/-- re.search over the airmon-ng output (interface_controller.py lines
86-93): scan positions left to right, trying the two alternatives at each. -/
def airmonFind : List Char → Option String
  | [] => Option.none
  | c :: t =>
    match airmonAlt1 (c :: t) with
    | some g => some (String.mk g)
    | Option.none =>
      match airmonAlt2 (c :: t) with
      | some g => some (String.mk g)
      | Option.none => airmonFind t

/-- The parsed monitor-interface name from `airmon-ng start` output. -/
def findAirmonName (s : String) : Option String :=
  airmonFind s.toList

/-- The commands enable_monitor_mode can issue, in issue order. -/
inductive MonEvent where
  | nmShowCmd
  | nmUnmanageCmd
  | ipLinkDownCmd
  | iwSetMonitorCmd
  | ipLinkUpCmd
  | iwInfoCmd
  | airmonStartCmd
  | iwInfoAfterAirmonCmd
  | nmRestoreCmd
deriving Repr, DecidableEq

/-- Outcomes of the shell commands a single enable_monitor_mode call can
reach. -/
structure MonWorld where
  nmShow : ShellOutcome
  nmUnmanage : ShellOutcome
  ipLinkDown : ShellOutcome
  iwSetMonitor : ShellOutcome
  ipLinkUp : ShellOutcome
  iwInfo : ShellOutcome
  airmonStart : ShellOutcome
  iwInfoAfterAirmon : ShellOutcome
  nmRestore : ShellOutcome
deriving Repr, DecidableEq

/-- The NetworkManager probe block (lines 47-63): the `-g GENERAL.NM-MANAGED`
output is stripped and lowered; on "yes" the unmanage command is issued and
the flag set only if it did not raise (the surrounding except swallows the
failure).  Returns (nm_was_set_unmanaged, events). -/
def nmProbePhase (w : MonWorld) : Bool × List MonEvent :=
  if pyLower (pyStrip (runNC w.nmShow)) = "yes" then
    if w.nmUnmanage.raises then (false, [.nmShowCmd, .nmUnmanageCmd])
    else (true, [.nmShowCmd, .nmUnmanageCmd])
  else (false, [.nmShowCmd])

/-- Path A (lines 65-77): ip link down, iw set type monitor, ip link up,
then verify `type monitor` in `iw dev info`; any raise or a failed
verification sends control to the except branch. -/
def pathA (w : MonWorld) (interface : String) :
    Option String × List MonEvent :=
  if w.ipLinkDown.raises then (Option.none, [.ipLinkDownCmd])
  else if w.iwSetMonitor.raises then
    (Option.none, [.ipLinkDownCmd, .iwSetMonitorCmd])
  else if w.ipLinkUp.raises then
    (Option.none, [.ipLinkDownCmd, .iwSetMonitorCmd, .ipLinkUpCmd])
  else if w.iwInfo.raises then
    (Option.none, [.ipLinkDownCmd, .iwSetMonitorCmd, .ipLinkUpCmd, .iwInfoCmd])
  else if strContains (pyLower w.iwInfo.out) "type monitor" then
    (some interface, [.ipLinkDownCmd, .iwSetMonitorCmd, .ipLinkUpCmd, .iwInfoCmd])
  else
    (Option.none, [.ipLinkDownCmd, .iwSetMonitorCmd, .ipLinkUpCmd, .iwInfoCmd])

/-- Path B (lines 79-107): `airmon-ng start`, regex parse of its output,
and — when no name was parsed — a best-effort `iw dev info` check on the
original interface. -/
def pathB (w : MonWorld) (interface : String) :
    Option String × List MonEvent :=
  if w.airmonStart.raises then (Option.none, [.airmonStartCmd])
  else
    match findAirmonName w.airmonStart.out with
    | some parsed => (some (pyStrip parsed), [.airmonStartCmd])
    | Option.none =>
      if strContains (pyLower (runNC w.iwInfoAfterAirmon)) "type monitor" then
        (some interface, [.airmonStartCmd, .iwInfoAfterAirmonCmd])
      else (Option.none, [.airmonStartCmd, .iwInfoAfterAirmonCmd])

/-- enable_monitor_mode (lines 23-139).  Returns the (name, flag) pair the
method returns, the updated interfaces map, and the issued commands.  The
finally block (lines 109-117) restores NetworkManager management exactly
when the whole setup failed and this call had set the interface unmanaged,
clearing the returned flag if that restore command succeeded.  No exception
ever escapes the method. -/
def enable_monitor_mode (st : List (String × Iface)) (w : MonWorld)
    (interface : String) :
    (Option String × Bool) × List (String × Iface) × List MonEvent :=
  match lookupKey st interface with
  | Option.none => ((Option.none, false), st, [])
  | some e =>
    if e.driver.isNone || e.mode = "ethernet" then
      ((Option.none, false), st, [])
    else
      let nm := nmProbePhase w
      let a := pathA w interface
      let result :=
        match a.1 with
        | some n => (some n, a.2)
        | Option.none =>
          let b := pathB w interface
          (b.1, a.2 ++ b.2)
      let afterFinally :=
        match result.1 with
        | some n => ((some n : Option String), nm.1, result.2)
        | Option.none =>
          if nm.1 then
            if w.nmRestore.raises then
              ((Option.none : Option String), true, result.2 ++ [MonEvent.nmRestoreCmd])
            else
              ((Option.none : Option String), false, result.2 ++ [MonEvent.nmRestoreCmd])
          else ((Option.none : Option String), false, result.2)
      let st2 :=
        match afterFinally.1 with
        | some _ => dictUpdate st interface { e with mode := "monitor" }
        | Option.none => st
      ((afterFinally.1, afterFinally.2.1), st2, nm.2 ++ afterFinally.2.2)

/-- Total failure of the ip/iw path: some sub-command raised or the
verification read something other than `type monitor`. -/
def pathAFails (w : MonWorld) : Prop :=
  w.ipLinkDown.raises = true ∨ w.iwSetMonitor.raises = true ∨
  w.ipLinkUp.raises = true ∨ w.iwInfo.raises = true ∨
  strContains (pyLower w.iwInfo.out) "type monitor" = false

/-- Total failure of the airmon-ng path: the command raised, or no monitor
name was parsed and the follow-up `iw dev info` did not show monitor mode. -/
def pathBFails (w : MonWorld) : Prop :=
  w.airmonStart.raises = true ∨
  (findAirmonName w.airmonStart.out = Option.none ∧
   strContains (pyLower (runNC w.iwInfoAfterAirmon)) "type monitor" = false)

/-- This call set the interface to NetworkManager-unmanaged: the probe said
"yes" and the unmanage command succeeded. -/
def setUnmanaged (w : MonWorld) : Prop :=
  pyLower (pyStrip (runNC w.nmShow)) = "yes" ∧ w.nmUnmanage.raises = false

/-! ## Concrete instances used by the claim theorems -/

/-- A wireless interface entry as the scanner stores it for a radio whose
wiphy advertises managed, AP and monitor modes. -/
def wlan0Entry : Iface :=
  { name := "wlan0"
    mac := "AA:BB:CC:DD:EE:01"
    is_up := true
    mode := "managed"
    driver := some "ath9k"
    ssid := Option.none
    channel_frequency := Option.none
    is_wireless := true
    supports_monitor := true
    supports_managed := true
    supports_ap := true
    supports_mesh := false
    supports_p2p := false
    supports_adhoc := false
    supports_wds := false
    supports_vap := false
    supports_tdma := false
    supports_mimo := false
    supports_2ghz := true
    supports_5ghz := false
    supports_6ghz := false
    supports_11a := false
    supports_11b := true
    supports_11g := true
    supports_11n := true
    supports_11ac := false
    supports_11ax := false }

/-- An AP-manager environment in which every step succeeds. -/
def okAPWorld : APWorld :=
  { configWriteOk := true, hostapdSpawnOk := true,
    hostapdAliveAt3s := true, hostapdAliveAt5s := true }

/-- A shell environment in which NetworkManager manages the interface, the
ip/iw path runs but leaves the interface in managed mode, and airmon-ng
produces unparsable output with the interface still managed afterwards. -/
def bothPathsFailWorld : MonWorld :=
  { nmShow := { raises := false, out := "yes" }
    nmUnmanage := { raises := false, out := "" }
    ipLinkDown := { raises := false, out := "" }
    iwSetMonitor := { raises := false, out := "" }
    ipLinkUp := { raises := false, out := "" }
    iwInfo := { raises := false, out := "Interface wlan0 type managed" }
    airmonStart := { raises := false, out := "PHY Interface Driver Chipset" }
    iwInfoAfterAirmon := { raises := false, out := "Interface wlan0 type managed" }
    nmRestore := { raises := false, out := "" } }

/-- A redirector whose instance had enabled IP forwarding and installed no
rules yet. -/
def trStateFwdSet : TRState :=
  { applied_rules := [], ip_forwarding_enabled := true }

/-- An iptables environment in which exactly the first redirection rule
(the NAT masquerade append) fails. -/
def trWorldFailFirst : TRWorld :=
  { iptablesOk := fun argv =>
      !(argv == "-A" :: ["-t", "nat", "-A", "POSTROUTING", "-o", "eth0",
                          "-j", "MASQUERADE"]) }

/-- The expected event sequence of one clear_redirection_rules call on an
instance holding the given undo list and forwarding flag. -/
def clearTraceEvents (applied : List (List String)) (b : Bool) : List TREvent :=
  applied.reverse.map TREvent.ipt ++ flushArgvs.map TREvent.ipt ++
    (if b then [TREvent.sysctlForward 0] else [])

/-- The rule at one of the seven install positions. -/
def ruleAt (ap_interface internet_interface webserver_ip : String)
    (webserver_port : Nat) (k : Fin 7) : List String :=
  ((rulesToApply ap_interface internet_interface webserver_ip webserver_port).get?
    k.val).getD []

/-- A 13-field airodump AP row (one short of the 14 the parser requires),
with a WPA2 privacy field. -/
def shortRow : List String :=
  ["AA:BB:CC:DD:EE:FF", " 2026-01-01 10:00:00", " 2026-01-01 10:00:05",
   " 6", " 54", " WPA2 CCMP", " CCMP", " PSK", " -40", " 10", " 0",
   " 0.0.0.0", " 0"]

/-- Networks for the sorting counterexample: a non-integer power first,
then two integer powers in ascending order. -/
def netBadPower : APNetwork :=
  { bssid := "B1", channel := "1", essid := "one", essid_raw := "one",
    privacy := "WPA2", power := "bad" }

def netMinus30 : APNetwork :=
  { bssid := "B2", channel := "3", essid := "two", essid_raw := "two",
    privacy := "WPA2", power := "-30" }

def netMinus20 : APNetwork :=
  { bssid := "B3", channel := "5", essid := "three", essid_raw := "three",
    privacy := "WPA2", power := "-20" }

/-! ## Shared helper lemmas -/

/-- Replacing the value of one key in place leaves every other key's lookup
unchanged. -/
theorem lookupKey_replaceKey_ne {α : Type} (m : List (String × α))
    (k key : String) (v : α) (h : key ≠ k) :
    lookupKey (replaceKey m key v) k = lookupKey m k := by
  induction m with
  | nil => rfl
  | cons p t ih =>
    obtain ⟨pk, pv⟩ := p
    by_cases hp : pk = key
    · simp only [replaceKey, if_pos hp, lookupKey]
      rw [if_neg h, if_neg (fun hc => h (hp ▸ hc))]
      exact ih
    · simp only [replaceKey, if_neg hp, lookupKey]
      by_cases hpk : pk = k
      · rw [if_pos hpk, if_pos hpk]
      · rw [if_neg hpk, if_neg hpk]
        exact ih

/-- Appending a binding for one key leaves every other key's lookup
unchanged. -/
theorem lookupKey_append_single_ne {α : Type} (m : List (String × α))
    (k key : String) (v : α) (h : key ≠ k) :
    lookupKey (m ++ [(key, v)]) k = lookupKey m k := by
  induction m with
  | nil =>
    simp only [List.nil_append, lookupKey]
    rw [if_neg h]
  | cons p t ih =>
    simp only [List.cons_append, lookupKey]
    by_cases hpk : p.1 = k
    · rw [if_pos hpk, if_pos hpk]
    · rw [if_neg hpk, if_neg hpk]
      exact ih

/-- dict.update with one key leaves every other key's lookup unchanged. -/
theorem lookupKey_dictUpdate_ne {α : Type} (m : List (String × α))
    (k key : String) (v : α) (h : key ≠ k) :
    lookupKey (dictUpdate m key v) k = lookupKey m k := by
  unfold dictUpdate
  split
  · exact lookupKey_replaceKey_ne m k key v h
  · exact lookupKey_append_single_ne m k key v h

/-! ## Claim theorems -/

/-- C1: whenever the EvilTwinAttack constructor completed, the finally
block of run(ctx, *args) invokes cleanup() before run returns — on the
normal path, on every phase-failure return, and when a phase raises. -/
theorem evil_twin_cleanup_on_every_exit (t : EvilTwinTrace)
    (h : t.ctorRaises = false) : (evilTwinRun t).2 = true := by
  obtain ⟨c, s, f, i, l, v⟩ := t
  simp only at h
  subst h
  show (evilTwinRun ⟨false, s, f, i, l, v⟩).2 = true
  cases s with
  | exc => rfl
  | ok b1 =>
    cases b1
    · rfl
    · cases f with
      | exc => rfl
      | ok b2 =>
        cases b2
        · rfl
        · cases i with
          | exc => rfl
          | ok b3 =>
            cases b3
            · rfl
            · cases l with
              | exc => rfl
              | ok b4 =>
                cases v with
                | exc => rfl
                | ok b5 => rfl

/-- Witness for C1: a run whose infrastructure phase raised still invoked
cleanup. -/
theorem evil_twin_cleanup_on_every_exit_witness :
    (evilTwinRun
      { ctorRaises := false, select := .ok true, findTarget := .ok true,
        setupInfra := .exc, attackLoop := .ok true,
        verifyCleanup := .ok true }).2 = true :=
  evil_twin_cleanup_on_every_exit
    { ctorRaises := false, select := .ok true, findTarget := .ok true,
      setupInfra := .exc, attackLoop := .ok true, verifyCleanup := .ok true }
    rfl

/-- C9: saving a store whose three components are JSON-serialisable (a list
of plugins, a discovery graph holding its interfaces and devices maps, and a
config object) and loading the file into any store reproduces the three
components exactly. -/
theorem save_load_roundtrip (lp : List Json) (ifs dvs uc : List (String × Json))
    (st2 : AppState) :
    AppState.load_from_file st2
      (.content (AppState.save_to_file
        { loaded_plugins := .arr lp
          discovery_graph := .obj [("interfaces", .obj ifs), ("devices", .obj dvs)]
          user_config := .obj uc })) =
    .ok { loaded_plugins := .arr lp
          discovery_graph := .obj [("interfaces", .obj ifs), ("devices", .obj dvs)]
          user_config := .obj uc } := by
  simp [AppState.load_from_file, AppState.save_to_file, AppState.to_dict,
        objGet, jsonTruthy]

/-- C10: on a missing file, undecodable contents, or an I/O failure,
load_from_file raises nothing and resets the three components to their
defaults, discarding whatever the store held before. -/
theorem load_failure_resets_state (st : AppState) (inp : AppState.LoadInput)
    (h : inp = .missingFile ∨ inp = .notJson ∨ inp = .ioError) :
    st.load_from_file inp = .ok AppState.init := by
  rcases h with h | h | h <;> subst h <;> rfl

/-- Witness for C10: a store with non-default contents is reset by a load
from a missing file. -/
theorem load_failure_resets_state_witness :
    ({ loaded_plugins := .arr [.str "evil_twin"]
       discovery_graph := .obj [("interfaces", .obj []), ("devices", .obj [])]
       user_config := .obj [("mock", .bool true)] } : AppState).load_from_file
      .missingFile = .ok AppState.init :=
  load_failure_resets_state
    { loaded_plugins := .arr [.str "evil_twin"]
      discovery_graph := .obj [("interfaces", .obj []), ("devices", .obj [])]
      user_config := .obj [("mock", .bool true)] }
    .missingFile (Or.inl rfl)

/-- C8 counterexample: invoking a plugin whose run raises makes
CapGateRunner.run_plugin return None — a value that is not the boolean
false, contradicting the claim that the invocation returns a boolean and
converts raised failures to false. -/
theorem run_plugin_returns_none_counterexample :
    run_plugin [("evil_twin", PluginBehavior.raises)] "evil_twin" =
      .ok PyVal.none ∧ PyVal.none ≠ PyVal.bool false := by
  exact ⟨rfl, by decide⟩

/-- C8 amended: run_plugin never lets an exception escape; it returns None
when the plugin is unknown or its run raised, and otherwise passes the
plugin's returned value through unchanged. -/
theorem run_plugin_total_behaviour (reg : List (String × PluginBehavior))
    (name : String) :
    ∃ v : PyVal, run_plugin reg name = .ok v ∧
      ((lookupKey reg name).isNone → v = PyVal.none) ∧
      (lookupKey reg name = some .raises → v = PyVal.none) ∧
      (∀ u, lookupKey reg name = some (.returns u) → v = u) := by
  rcases h : lookupKey reg name with _ | b
  · refine ⟨PyVal.none, ?_, ?_, ?_, ?_⟩
    · simp [run_plugin, h]
    · intro _
      rfl
    · intro hc
      exact Option.noConfusion hc
    · intro u hu
      exact Option.noConfusion hu
  · cases b with
    | raises =>
      refine ⟨PyVal.none, ?_, ?_, ?_, ?_⟩
      · simp [run_plugin, h, pluginCall]
      · intro hc
        simp at hc
      · intro _
        rfl
      · intro u hu
        simp at hu
    | returns u0 =>
      refine ⟨u0, ?_, ?_, ?_, ?_⟩
      · simp [run_plugin, h, pluginCall]
      · intro hc
        simp at hc
      · intro hc
        simp at hc
      · intro u hu
        simp at hu
        exact hu

/-- Witness for C8: the amended theorem applied to a registry with one
raising plugin. -/
theorem run_plugin_total_behaviour_witness :
    run_plugin [("jammer", PluginBehavior.raises)] "jammer" = .ok PyVal.none := by
  obtain ⟨v, h1, _, h3, _⟩ :=
    run_plugin_total_behaviour [("jammer", PluginBehavior.raises)] "jammer"
  rw [h1, h3 (by rfl)]

/-- C5 counterexample: a single active ARP-sweep reply carrying the zero
MAC is merged into an empty devices map by the runner, so
00:00:00:00:00:00 becomes a key — the claimed invariant fails on the
active path. -/
theorem zero_mac_inserted_by_active_sweep :
    lookupKey
      (active_arp_sweep_merge [] [("00:00:00:00:00:00", "10.0.0.7")] 0)
      "00:00:00:00:00:00" =
    some { mac := "00:00:00:00:00:00", ip := "10.0.0.7", last_seen := 0 } := by
  rfl

/-- The zero MAC stays absent under any merge step that filters it out. -/
theorem zero_mac_preserved_by_filtered_fold
    (entries : List (String × String)) (m : List (String × DeviceEntry))
    (now : Nat)
    (h : lookupKey m "00:00:00:00:00:00" = Option.none) :
    lookupKey
      (entries.foldl
        (fun acc p =>
          if p.1 = "00:00:00:00:00:00" then acc
          else dictUpdate acc p.1 { mac := p.1, ip := p.2, last_seen := now })
        m)
      "00:00:00:00:00:00" = Option.none := by
  induction entries generalizing m with
  | nil => exact h
  | cons p rest ih =>
    simp only [List.foldl_cons]
    by_cases hp : p.1 = "00:00:00:00:00:00"
    · rw [if_pos hp]
      exact ih m h
    · rw [if_neg hp]
      refine ih _ ?_
      rw [lookupKey_dictUpdate_ne _ _ _ _ hp]
      exact h

/-- C5 amended: the passive ARP-table scan never inserts the zero MAC (its
explicit filter catches it); the invariant therefore holds for every
sequence of passive scans, but not for the active sweep merge, which checks
only that the MAC string is nonempty. -/
theorem passive_scan_never_inserts_zero_mac (lines : List String)
    (st : List (String × DeviceEntry)) (now : Nat)
    (h : lookupKey st "00:00:00:00:00:00" = Option.none) :
    lookupKey (scan_devices_from_arp_table st lines now)
      "00:00:00:00:00:00" = Option.none := by
  unfold scan_devices_from_arp_table
  exact zero_mac_preserved_by_filtered_fold (parse_arp_table lines) st now h

/-- Witness for C5: a passive scan over a real arp -an line leaves the zero
MAC absent from an empty store. -/
theorem passive_scan_never_inserts_zero_mac_witness :
    lookupKey
      (scan_devices_from_arp_table []
        ["? (192.168.1.1) at aa:bb:cc:dd:ee:ff [ether] on wlan0"] 5)
      "00:00:00:00:00:00" = Option.none :=
  passive_scan_never_inserts_zero_mac
    ["? (192.168.1.1) at aa:bb:cc:dd:ee:ff [ether] on wlan0"] [] 5 rfl

/-- C6 counterexample: a 13-field AP row (fewer than 14 columns) is dropped
by the parser instead of appearing as a hidden network — the scan result is
empty, with no `<Hidden SSID>` entry. -/
theorem short_row_dropped_counterexample :
    NetworkScanner.scanResult [shortRow] "WPA" = [] := by
  have hp : NetworkScanner.parseAPSection "WPA" [shortRow] true = [] := by rfl
  unfold NetworkScanner.scanResult NetworkScanner.sortNetworks
  rw [hp]
  exact List.mergeSort_nil

/-- C6 amended: among AP-section rows, a row of at least 14 fields whose
ESSID field is empty or contains a NUL byte is kept as `<Hidden SSID>`
(subject to the privacy filter), while a row of fewer than 14 fields is
dropped from the result entirely. -/
theorem hidden_and_short_row_handling (filter c0 : String)
    (tail : List String) (rest : List (List String))
    (h1 : pyStrip c0 ≠ "") (h2 : pyStrip c0 ≠ "Station MAC")
    (h3 : pyStrip c0 ≠ "BSSID") :
    (((c0 :: tail).length < 14 →
      NetworkScanner.parseAPSection filter ((c0 :: tail) :: rest) true =
        NetworkScanner.parseAPSection filter rest true) ∧
     (14 ≤ (c0 :: tail).length →
      ((pyStrip (((c0 :: tail).get? 13).getD "") = "" ∨
        NetworkScanner.hasNul (pyStrip (((c0 :: tail).get? 13).getD "")) = true) →
       strContains (pyUpper (pyStrip (((c0 :: tail).get? 5).getD "")))
         (pyUpper filter) = true →
       NetworkScanner.parseAPSection filter ((c0 :: tail) :: rest) true =
         { bssid := pyStrip c0
           channel := pyStrip (((c0 :: tail).get? 3).getD "")
           essid := "<Hidden SSID>"
           essid_raw := pyStrip (((c0 :: tail).get? 13).getD "")
           privacy := pyStrip (((c0 :: tail).get? 5).getD "")
           power := pyStrip (((c0 :: tail).get? 8).getD "") }
           :: NetworkScanner.parseAPSection filter rest true))) := by
  constructor
  · intro hlen
    show (if pyStrip c0 = "" then NetworkScanner.parseAPSection filter rest true
      else if pyStrip c0 = "Station MAC" then
        NetworkScanner.parseAPSection filter rest false
      else if (!true : Bool) then NetworkScanner.parseAPSection filter rest true
      else if pyStrip c0 = "BSSID" then
        NetworkScanner.parseAPSection filter rest true
      else if (c0 :: tail).length < 14 then
        NetworkScanner.parseAPSection filter rest true
      else _) = NetworkScanner.parseAPSection filter rest true
    rw [if_neg h1, if_neg h2, if_neg (by decide : ¬((!true : Bool) = true)),
      if_neg h3, if_pos hlen]
  · intro hlen hhid hpriv
    have hnotlt : ¬((c0 :: tail).length < 14) := not_lt.mpr hlen
    have hhidb : (decide (pyStrip (((c0 :: tail).get? 13).getD "") = "") ||
        NetworkScanner.hasNul (pyStrip (((c0 :: tail).get? 13).getD ""))) =
          true := by
      rcases hhid with hh | hh
      · rw [hh]
        decide
      · rw [hh]
        simp
    show (if pyStrip c0 = "" then NetworkScanner.parseAPSection filter rest true
      else if pyStrip c0 = "Station MAC" then
        NetworkScanner.parseAPSection filter rest false
      else if (!true : Bool) then NetworkScanner.parseAPSection filter rest true
      else if pyStrip c0 = "BSSID" then
        NetworkScanner.parseAPSection filter rest true
      else if (c0 :: tail).length < 14 then
        NetworkScanner.parseAPSection filter rest true
      else _) = _
    rw [if_neg h1, if_neg h2, if_neg (by decide : ¬((!true : Bool) = true)),
      if_neg h3, if_neg hnotlt]
    show (if strContains (pyUpper (pyStrip (((c0 :: tail).get? 5).getD "")))
          (pyUpper filter) then
        ({ bssid := pyStrip c0
           channel := pyStrip (((c0 :: tail).get? 3).getD "")
           essid :=
             if (decide (pyStrip (((c0 :: tail).get? 13).getD "") = "") ||
                 NetworkScanner.hasNul
                   (pyStrip (((c0 :: tail).get? 13).getD ""))) = true then
               "<Hidden SSID>"
             else pyStrip (((c0 :: tail).get? 13).getD "")
           essid_raw := pyStrip (((c0 :: tail).get? 13).getD "")
           privacy := pyStrip (((c0 :: tail).get? 5).getD "")
           power := pyStrip (((c0 :: tail).get? 8).getD "") } : APNetwork)
          :: NetworkScanner.parseAPSection filter rest true
      else NetworkScanner.parseAPSection filter rest true) = _
    rw [if_pos hpriv, if_pos hhidb]

/-- Witness for C6: a 14-field row whose ESSID holds a NUL byte produces
the `<Hidden SSID>` entry. -/
theorem hidden_and_short_row_handling_witness :
    NetworkScanner.parseAPSection "WPA"
      [["AA:BB:CC:DD:EE:FF", " t1", " t2", " 6", " 54", " WPA2 CCMP",
        " CCMP", " PSK", " -40", " 10", " 0", " 0.0.0.0", " 5",
        String.mk [Char.ofNat 0]]] true =
      [{ bssid := "AA:BB:CC:DD:EE:FF", channel := "6",
         essid := "<Hidden SSID>",
         essid_raw := pyStrip (String.mk [Char.ofNat 0]),
         privacy := "WPA2 CCMP", power := "-40" }] := by
  have h := (hidden_and_short_row_handling "WPA" "AA:BB:CC:DD:EE:FF"
    [" t1", " t2", " 6", " 54", " WPA2 CCMP", " CCMP", " PSK", " -40",
     " 10", " 0", " 0.0.0.0", " 5", String.mk [Char.ofNat 0]] []
    (by decide) (by decide) (by decide)).2
  have h2 := h (by decide) (by right; decide) (by decide)
  rw [h2]
  decide

/-- C7 counterexample: with one non-integer power present the sort is
abandoned entirely — the list keeps its original order instead of placing
the non-integer entry after the integer-power entries in descending
order. -/
theorem sort_abandoned_counterexample :
    NetworkScanner.sortNetworks [netBadPower, netMinus30, netMinus20] =
      [netBadPower, netMinus30, netMinus20] ∧
    NetworkScanner.sortNetworks [netBadPower, netMinus30, netMinus20] ≠
      [netMinus20, netMinus30, netBadPower] := by
  constructor
  · rfl
  · decide

/-- C7 amended: the returned list is always a permutation of the parsed one;
when every power converts to an integer it is sorted descending by that key,
and when any power fails to convert the whole sort is skipped and the list
is returned in its original order. -/
theorem sort_networks_behaviour (ns : List APNetwork) :
    (NetworkScanner.sortNetworks ns).Perm ns ∧
    ((∀ n ∈ ns, (NetworkScanner.powerKey n).isSome = true) →
      (NetworkScanner.sortNetworks ns).Pairwise
        (fun a b => NetworkScanner.powerGE a b = true)) ∧
    ((¬ ∀ n ∈ ns, (NetworkScanner.powerKey n).isSome = true) →
      NetworkScanner.sortNetworks ns = ns) := by
  unfold NetworkScanner.sortNetworks
  by_cases hall : ns.all (fun n => (NetworkScanner.powerKey n).isSome) = true
  · rw [if_pos hall]
    refine ⟨List.mergeSort_perm ns _, fun _ => ?_, fun hc => ?_⟩
    · exact List.sorted_mergeSort
        (fun a b c hab hbc => by
          simp only [NetworkScanner.powerGE, decide_eq_true_eq] at *
          exact le_trans hbc hab)
        (fun a b => by
          simp only [NetworkScanner.powerGE]
          rcases le_total ((NetworkScanner.powerKey b).getD 0)
            ((NetworkScanner.powerKey a).getD 0) with hle | hle
          · simp [hle]
          · simp [hle])
        ns
    · exact absurd (by rw [List.all_eq_true] at hall; exact hall) hc
  · rw [if_neg hall]
    refine ⟨List.Perm.refl ns, fun hc => ?_, fun _ => rfl⟩
    exact absurd (by rw [List.all_eq_true]; exact hc) hall

/-- Witness for C7: the amended theorem applied to a concrete one-element
list whose power is not an integer. -/
theorem sort_networks_behaviour_witness :
    NetworkScanner.sortNetworks [netBadPower] = [netBadPower] := by
  exact (sort_networks_behaviour [netBadPower]).2.2 (by decide)

/-- C4: start_ap on a radio whose wiphy advertises managed, AP and monitor
modes succeeds but overwrites the stored capability flags with mode-derived
values — supports_monitor and supports_managed drop to false even though
the wiphy still supports both, contradicting the data-model invariant that
capability flags reflect the wiphy and are preserved by mode changes. -/
theorem start_ap_overwrites_capability_flags :
    wlan0Entry.supports_monitor =
      (capsFromSupportedModes ["managed", "AP", "monitor"]).1 ∧
    wlan0Entry.supports_managed =
      (capsFromSupportedModes ["managed", "AP", "monitor"]).2.1 ∧
    (start_ap [("wlan0", wlan0Entry)] okAPWorld "wlan0" "example" 1 "g").1 =
      true ∧
    (lookupKey
      (start_ap [("wlan0", wlan0Entry)] okAPWorld "wlan0" "example" 1 "g").2
      "wlan0").map Iface.supports_monitor = some false ∧
    (lookupKey
      (start_ap [("wlan0", wlan0Entry)] okAPWorld "wlan0" "example" 1 "g").2
      "wlan0").map Iface.supports_managed = some false := by
  refine ⟨rfl, rfl, rfl, rfl, rfl⟩

/-- C3 counterexample: with the forwarding flag set and the very first rule
failing, setup_redirection_rules returns false and rolls back, but the
internal we_enabled_forwarding flag is still set afterwards — it is not
cleared even though this instance had set it. -/
theorem forwarding_flag_not_cleared_counterexample :
    (setup_redirection_rules trStateFwdSet trWorldFailFirst
      "wlan0" "eth0" "10.0.0.1" 80).1 = false ∧
    (setup_redirection_rules trStateFwdSet trWorldFailFirst
      "wlan0" "eth0" "10.0.0.1" 80).2.1.ip_forwarding_enabled = true := by
  exact ⟨rfl, rfl⟩

/-- The install loop stops at the first failing rule, having recorded the
undo forms of exactly the preceding prefix and issued the appends of the
prefix plus the failing rule. -/
theorem applyLoop_stops_at_failure (w : TRWorld) (rules : List (List String))
    (k : Nat) (hk : k < rules.length)
    (hpre : ∀ i, i < k → ∀ r, rules.get? i = some r →
      w.iptablesOk ("-A" :: r) = true)
    (hfail : ∀ r, rules.get? k = some r → w.iptablesOk ("-A" :: r) = false)
    (applied : List (List String)) (events : List TREvent) :
    applyLoop w rules applied events =
      (false,
       applied ++ (rules.take k).map (fun r => "-D" :: r),
       events ++ (rules.take (k + 1)).map (fun r => TREvent.ipt ("-A" :: r))) := by
  induction rules generalizing k applied events with
  | nil => exact absurd hk (Nat.not_lt_zero k)
  | cons r rest ih =>
    cases k with
    | zero =>
      have hf := hfail r rfl
      simp [applyLoop, hf]
    | succ k2 =>
      have h0 := hpre 0 (Nat.succ_pos k2) r rfl
      have hk2 : k2 < rest.length := Nat.lt_of_succ_lt_succ hk
      have hpre2 : ∀ i, i < k2 → ∀ r2, rest.get? i = some r2 →
          w.iptablesOk ("-A" :: r2) = true := by
        intro i hi r2 hr2
        exact hpre (i + 1) (Nat.succ_lt_succ hi) r2 hr2
      have hfail2 : ∀ r2, rest.get? k2 = some r2 →
          w.iptablesOk ("-A" :: r2) = false := by
        intro r2 hr2
        exact hfail r2 hr2
      simp only [applyLoop, h0, if_pos rfl, if_true]
      rw [ih k2 hk2 hpre2 hfail2]
      simp [List.take_succ_cons]

/-- C3 amended: when the prefix of rules before position k installs and the
rule at k fails, setup_redirection_rules returns false after re-invoking
clear_redirection_rules, which deletes the installed prefix in reverse
order of installation and issues the kernel ip_forward reset iff this
instance had enabled forwarding; the internal we_enabled_forwarding flag
itself is left unchanged — in particular it is not cleared when it was
set. -/
theorem setup_failure_rolls_back (ap_interface internet_interface
    webserver_ip : String) (webserver_port : Nat) (b : Bool) (w : TRWorld)
    (k : Nat) (hk : k < 7)
    (hpre : ∀ i, i < k → ∀ r,
      (rulesToApply ap_interface internet_interface webserver_ip
        webserver_port).get? i = some r → w.iptablesOk ("-A" :: r) = true)
    (hfail : ∀ r,
      (rulesToApply ap_interface internet_interface webserver_ip
        webserver_port).get? k = some r → w.iptablesOk ("-A" :: r) = false) :
    (setup_redirection_rules
      { applied_rules := [], ip_forwarding_enabled := b } w ap_interface
      internet_interface webserver_ip webserver_port).1 = false ∧
    (setup_redirection_rules
      { applied_rules := [], ip_forwarding_enabled := b } w ap_interface
      internet_interface webserver_ip webserver_port).2.1.applied_rules = [] ∧
    (setup_redirection_rules
      { applied_rules := [], ip_forwarding_enabled := b } w ap_interface
      internet_interface webserver_ip
      webserver_port).2.1.ip_forwarding_enabled = b ∧
    (setup_redirection_rules
      { applied_rules := [], ip_forwarding_enabled := b } w ap_interface
      internet_interface webserver_ip webserver_port).2.2 =
      clearTraceEvents [] b ++
      ((rulesToApply ap_interface internet_interface webserver_ip
        webserver_port).take (k + 1)).map (fun r => TREvent.ipt ("-A" :: r)) ++
      clearTraceEvents
        (((rulesToApply ap_interface internet_interface webserver_ip
          webserver_port).take k).map (fun r => "-D" :: r)) b := by
  have hlen : k < (rulesToApply ap_interface internet_interface webserver_ip
      webserver_port).length := by
    simpa [rulesToApply] using hk
  have hloop := applyLoop_stops_at_failure w
    (rulesToApply ap_interface internet_interface webserver_ip webserver_port)
    k hlen hpre hfail [] []
  refine ⟨?_, ?_, ?_, ?_⟩ <;>
    simp [setup_redirection_rules, clear_redirection_rules, hloop,
      clearTraceEvents, List.map_reverse]

/-- Witness for C3: the amended theorem applied at the concrete
first-rule-fails world, confirming the forwarding flag survives the
rollback. -/
theorem setup_failure_rolls_back_witness :
    (setup_redirection_rules
      { applied_rules := [], ip_forwarding_enabled := true } trWorldFailFirst
      "wlan0" "eth0" "10.0.0.1" 80).2.1.ip_forwarding_enabled = true := by
  refine (setup_failure_rolls_back "wlan0" "eth0" "10.0.0.1" 80 true
    trWorldFailFirst 0 (by decide)
    (fun i hi => absurd hi (Nat.not_lt_zero i)) ?_).2.2.1
  intro r hr
  injection hr with h2
  rw [← h2]
  decide

/-- A failed ip/iw path produces no monitor interface name. -/
theorem pathA_fails_none (w : MonWorld) (iface : String) (hA : pathAFails w) :
    (pathA w iface).1 = Option.none := by
  unfold pathA
  unfold pathAFails at hA
  split_ifs with h1 h2 h3 h4 h5 <;> simp_all

/-- A failed airmon-ng path produces no monitor interface name. -/
theorem pathB_fails_none (w : MonWorld) (iface : String) (hB : pathBFails w) :
    (pathB w iface).1 = Option.none := by
  unfold pathB
  unfold pathBFails at hB
  rcases hB with hb | ⟨hb1, hb2⟩
  · simp [hb]
  · by_cases h1 : w.airmonStart.raises
    · simp [h1]
    · simp [h1, hb1, hb2]

/-- The ip/iw path never issues the NetworkManager restore command. -/
theorem restore_not_in_pathA (w : MonWorld) (iface : String) :
    MonEvent.nmRestoreCmd ∉ (pathA w iface).2 := by
  unfold pathA
  split_ifs <;> simp

/-- The airmon-ng path never issues the NetworkManager restore command. -/
theorem restore_not_in_pathB (w : MonWorld) (iface : String) :
    MonEvent.nmRestoreCmd ∉ (pathB w iface).2 := by
  unfold pathB
  by_cases h1 : w.airmonStart.raises
  · simp [h1]
  · cases hf : findAirmonName w.airmonStart.out with
    | none =>
      by_cases h2 : strContains (pyLower (runNC w.iwInfoAfterAirmon))
          "type monitor"
      · simp [h1, hf, h2]
      · simp [h1, hf, h2]
    | some parsed => simp [h1, hf]

/-- The NetworkManager probe never issues the restore command. -/
theorem restore_not_in_nmProbe (w : MonWorld) :
    MonEvent.nmRestoreCmd ∉ (nmProbePhase w).2 := by
  unfold nmProbePhase
  split_ifs <;> simp

/-- The probe phase reports that this call unmanaged the interface exactly
when the probe said "yes" and the unmanage command succeeded. -/
theorem nmProbe_flag_iff (w : MonWorld) :
    (nmProbePhase w).1 = true ↔ setUnmanaged w := by
  unfold nmProbePhase setUnmanaged
  split_ifs with h1 h2 <;> simp_all

/-- C2 amended: when both the ip/iw path and the airmon-ng path fail on an
interface that passed the initial AppState guard, enable_monitor_mode
issues the NetworkManager restore command iff this call had set the
interface unmanaged, leaves the interfaces map untouched, and reports the
total failure by returning None as the monitor name — the method returns
normally (the source defines no MonitorModeUnavailable error and its
finally/except structure lets no exception escape). -/
theorem enable_monitor_total_failure (st : List (String × Iface))
    (w : MonWorld) (iface : String) (e : Iface)
    (hst : lookupKey st iface = some e) (hdrv : e.driver.isNone = false)
    (heth : e.mode ≠ "ethernet") (hA : pathAFails w) (hB : pathBFails w) :
    (enable_monitor_mode st w iface).1.1 = Option.none ∧
    ((MonEvent.nmRestoreCmd ∈ (enable_monitor_mode st w iface).2.2) ↔
      setUnmanaged w) ∧
    (enable_monitor_mode st w iface).2.1 = st := by
  have ha1 := pathA_fails_none w iface hA
  have hb1 := pathB_fails_none w iface hB
  have hnA := restore_not_in_pathA w iface
  have hnB := restore_not_in_pathB w iface
  have hnP := restore_not_in_nmProbe w
  have hguard : (e.driver.isNone || decide (e.mode = "ethernet")) = false := by
    simp [hdrv, heth]
  by_cases hnm : (nmProbePhase w).1 = true
  · by_cases hr : w.nmRestore.raises = true
    · simp only [enable_monitor_mode, hst, hguard, ha1, hb1, hnm, hr]
      simp only [Bool.false_eq_true, if_false, if_true]
      refine ⟨by trivial, ?_, by trivial⟩
      simp only [List.mem_append, List.mem_singleton]
      constructor
      · intro _
        exact (nmProbe_flag_iff w).mp hnm
      · intro _
        simp
    · simp only [enable_monitor_mode, hst, hguard, ha1, hb1, hnm, hr]
      simp only [Bool.false_eq_true, if_false, if_true]
      refine ⟨by trivial, ?_, by trivial⟩
      simp only [List.mem_append, List.mem_singleton]
      constructor
      · intro _
        exact (nmProbe_flag_iff w).mp hnm
      · intro _
        simp
  · have hnm2 : (nmProbePhase w).1 = false := by
      cases h : (nmProbePhase w).1
      · rfl
      · exact absurd h hnm
    simp only [enable_monitor_mode, hst, hguard, ha1, hb1, hnm2]
    simp only [Bool.false_eq_true, if_false]
    refine ⟨by trivial, ?_, by trivial⟩
    simp only [List.mem_append]
    constructor
    · intro hmem
      rcases hmem with hm | hm | hm
      · exact absurd hm hnP
      · exact absurd hm hnA
      · exact absurd hm hnB
    · intro hsu
      exact absurd ((nmProbe_flag_iff w).mpr hsu) hnm

/-- C2 counterexample: on a concrete environment where NetworkManager was
managing the interface and both the ip/iw and airmon-ng paths fail,
enable_monitor_mode issues the NetworkManager restore and then returns the
ordinary value (None, false) to its caller — no MonitorModeUnavailable
error is surfaced (the codebase defines no such error kind and the method
returns a tuple on every path). -/
theorem monitor_mode_failure_returns_normally :
    (enable_monitor_mode [("wlan0", wlan0Entry)] bothPathsFailWorld
      "wlan0").1 = (Option.none, false) ∧
    MonEvent.nmRestoreCmd ∈
      (enable_monitor_mode [("wlan0", wlan0Entry)] bothPathsFailWorld
        "wlan0").2.2 := by
  exact ⟨rfl, by decide⟩

/-- Witness for C2: the amended theorem applied at the concrete
both-paths-fail environment. -/
theorem enable_monitor_total_failure_witness :
    (enable_monitor_mode [("wlan0", wlan0Entry)] bothPathsFailWorld
      "wlan0").2.1 = [("wlan0", wlan0Entry)] := by
  exact (enable_monitor_total_failure [("wlan0", wlan0Entry)]
    bothPathsFailWorld "wlan0" wlan0Entry rfl rfl (by decide)
    (by unfold pathAFails; decide) (by unfold pathBFails; decide)).2.2

end CapGate
